import Mathlib

/-!
Shallow embedding of SCORMint (`src/index.js`), a SCORM adapter class, and
proofs about its construction, API discovery (`findAPI`), connection
lifecycle and dispatch operations.

Modelling conventions:
* JS `undefined`/`null` slots become `Option`; a missing property is `none`.
* Window-like contexts are identified by `Nat` ids; an `Env` gives each
  context its `parent`, `API` and `API_1484_11` slots (the two capability
  slots), so the window-hierarchy is an explicit input.
* The host capability object (`this._api`'s behaviour) is a `Host` record of
  the primitives' return values; every adapter operation returns its JS
  result together with the ordered list of primitive calls it dispatched.
* In the source, after the `for (let window of windows)` loop of `findAPI`,
  the identifier `window` is no longer the loop variable but the ambient
  global window; the embedding therefore passes that global explicitly as
  `globalWindow`.
-/

namespace SCORMint

/-- `SCORM.VERSION_1_2 = '1.2'` -/
def VERSION_1_2 : String := "1.2"

/-- `SCORM.VERSION_2004 = '2004'` -/
def VERSION_2004 : String := "2004"

/-- The instance fields of `class SCORM` (constructor, src/index.js lines 10-35).
`_version : Option String` models the JS value `undefined` (absent argument)
as `none`; `_api : Option Nat` holds the opaque handle id of the capability
object, `none` for JS `null`/`undefined`. -/
structure SCORM where
  updateStatusAfterInitialize : Bool
  updateStatusBeforeTerminate : Bool
  _version : Option String
  _depth : Nat
  _api : Option Nat
  _connected : Bool
deriving DecidableEq, Repr

/-- Error thrown by the constructor:
`Invalid version ${version}. Expected: [1.2, 2004]`. -/
inductive ConstructError where
  | invalidVersion (version : Option String)
deriving DecidableEq, Repr

/-- `constructor(version)`: throws unless `version` is strictly equal to one
of the two recognized literals; otherwise initializes the instance fields. -/
def construct (version : Option String) : Except ConstructError SCORM :=
  if version ≠ some VERSION_1_2 ∧ version ≠ some VERSION_2004 then
    Except.error (ConstructError.invalidVersion version)
  else
    Except.ok
      { updateStatusAfterInitialize := true
        updateStatusBeforeTerminate := true
        _version := version
        _depth := 10
        _api := none
        _connected := false }

/-- `isV1()`: `this.version == SCORM.VERSION_1_2` (an absent version is not
loosely equal to a non-empty string). -/
def isV1 (s : SCORM) : Bool := s._version = some VERSION_1_2

/-- `isV2()`: `this.version == SCORM.VERSION_2004`. -/
def isV2 (s : SCORM) : Bool := s._version = some VERSION_2004

/-- The `version` getter. -/
def version (s : SCORM) : Option String := s._version

/-- The `connected` getter. -/
def connected (s : SCORM) : Bool := s._connected

/-- The window hierarchy: each context id has an optional parent context and
the two optional capability slots `API` (v1) and `API_1484_11` (v2004),
holding opaque handle ids. -/
structure Env where
  parent : Nat → Option Nat
  api : Nat → Option Nat
  api1484 : Nat → Option Nat

/-- The JS values the locals `api1_2` / `api2004` of `findAPI` range over:
they start as `this.version && this.version !== X` (so `undefined`, a
boolean, or a string when `this.version` is falsy `""`) and are then
`||`-combined with capability slots (objects, modelled by handle ids). -/
inductive Acc where
  | undef
  | bool (b : Bool)
  | str (s : String)
  | handle (h : Nat)
deriving DecidableEq, Repr

/-- JS truthiness of an `Acc` value. -/
def Acc.truthy : Acc → Bool
  | .undef => false
  | .bool b => b
  | .str t => t ≠ ""
  | .handle _ => true

/-- JS `a || b`: the first operand when truthy, otherwise the second. -/
def jsOr (a b : Acc) : Acc := if a.truthy then a else b

/-- A capability slot read (`window.API` / `window.API_1484_11`) as a JS
value: `undefined` when absent, the object otherwise. -/
def slotAcc : Option Nat → Acc
  | none => Acc.undef
  | some h => Acc.handle h

/-- `this.version && this.version !== other`: JS `&&` yields the left
operand when it is falsy (`undefined` or `""`), otherwise the boolean. -/
def versionAcc (v : Option String) (other : String) : Acc :=
  match v with
  | none => Acc.undef
  | some t => if t = "" then Acc.str "" else Acc.bool (t ≠ other)

/-- The inner `do { ... } while (window.parent && window.parent != window &&
attempts++ <= this._depth)` of `findAPI`. Faithful to the source, the body
re-reads the slots of the SAME context `w` on every pass — the loop variable
is never advanced to the parent — and the parent/attempts test only bounds
how often this repeats. `fuel` is the number of continuations the
post-incremented `attempts` counter still allows (initially `_depth + 1`).
Returns the two accumulators and whether `break both` fired. -/
def doWhileVisit (env : Env) (w : Nat) : Nat → Acc → Acc → Acc × Acc × Bool
  | fuel, a12, a04 =>
    let a12' := jsOr a12 (slotAcc (env.api w))
    let a04' := jsOr a04 (slotAcc (env.api1484 w))
    if a12'.truthy && a04'.truthy then (a12', a04', true)
    else
      match env.parent w, fuel with
      | some p, fuel' + 1 =>
        if p ≠ w then doWhileVisit env w fuel' a12' a04' else (a12', a04', false)
      | _, _ => (a12', a04', false)

/-- The labelled `both: for (let window of windows)` loop of `findAPI`,
threading the two accumulators through the contexts and stopping early when
the inner loop breaks out of both loops. -/
def searchLoop (env : Env) (depth : Nat) : List Nat → Acc → Acc → Acc × Acc
  | [], a12, a04 => (a12, a04)
  | w :: ws, a12, a04 =>
    let r := doWhileVisit env w (depth + 1) a12 a04
    if r.2.2 then (r.1, r.2.1) else searchLoop env depth ws r.1 r.2.1

/-- The error thrown by `findAPI`: `SCORM ${version} API requested but not
found` (the version is carried) or `SCORM API not found` (no version). -/
inductive FindError where
  | apiNotFound (version : Option String)
deriving DecidableEq, Repr

/-- JS truthiness of `this.version` (a string or `undefined`). -/
def versionTruthy : Option String → Bool
  | none => false
  | some v => v ≠ ""

/-- The `if (this.version)` branch of `findAPI` (src/index.js lines 84-92):
`this._api = (this.isV1() ? window.API : window.API_1484_11)` — at this
point `window` is the ambient global window, not a searched context — then
throw if the assigned slot is absent. The assignment to `this._api` happens
before the check, so it persists even when the error is thrown. -/
def findAPIPinned (env : Env) (globalWindow : Nat) (s : SCORM) :
    SCORM × Option FindError :=
  let s' := { s with _api := if isV1 s then env.api globalWindow
                             else env.api1484 globalWindow }
  if s'._api = none then (s', some (FindError.apiNotFound s._version))
  else (s', none)

/-- The `else` (autodetect) branch of `findAPI` (src/index.js lines 93-110):
read the global window's slots, preferring `API`, record version and handle,
and throw if `this._api` is still absent afterwards. -/
def findAPIAuto (env : Env) (globalWindow : Nat) (s : SCORM) :
    SCORM × Option FindError :=
  let s1 :=
    if (env.api globalWindow).isSome then
      { s with _version := some VERSION_1_2, _api := env.api globalWindow }
    else if (env.api1484 globalWindow).isSome then
      { s with _version := some VERSION_2004, _api := env.api1484 globalWindow }
    else s
  if s1._api = none then (s1, some (FindError.apiNotFound none))
  else (s1, none)

/-- `findAPI(windows)` (src/index.js lines 62-113). The accumulators
computed by the search loop are bound and then — exactly as in the source,
where the post-loop code reads the global `window` rather than the locals
`api1_2` / `api2004` — never used again. Returns the updated instance state
and `some` error when the source would throw (state mutations made before
the throw persist on the instance). -/
def findAPI (env : Env) (globalWindow : Nat) (windows : List Nat) (s : SCORM) :
    SCORM × Option FindError :=
  let api1_2 := versionAcc s._version VERSION_1_2
  let api2004 := versionAcc s._version VERSION_2004
  let _search := searchLoop env s._depth windows api1_2 api2004
  if versionTruthy s._version then findAPIPinned env globalWindow s
  else findAPIAuto env globalWindow s

/-- JS values flowing through the dispatch operations: strings, numbers,
booleans, `null` and `undefined`. -/
inductive JsValue where
  | str (s : String)
  | num (n : Int)
  | boolV (b : Bool)
  | nullV
  | undef
deriving DecidableEq, Repr

/-- JS `String(value)`. -/
def JsValue.toStr : JsValue → String
  | .str s => s
  | .num n => toString n
  | .boolV b => if b then "true" else "false"
  | .nullV => "null"
  | .undef => "undefined"

/-- JS falsiness of a `JsValue` (`!value`). -/
def jsFalsy : JsValue → Bool
  | .str s => s = ""
  | .num n => n = 0
  | .boolV b => !b
  | .nullV => true
  | .undef => true

/-- JS strict equality `value === lit` against a string literal. -/
def strictEqStr : JsValue → String → Bool
  | .str s, t => s = t
  | _, _ => false

/-- One primitive call dispatched to the host capability object, with the
argument values exactly as the source passes them. `LMSSetValue` carries a
raw `JsValue` because the v1 dispatch passes `value` unconverted, while
`SetValue` carries the result of `String(value)`. -/
inductive ApiCall where
  | LMSInitialize (arg : String)
  | Initialize (arg : String)
  | LMSFinish (arg : String)
  | Terminate (arg : String)
  | LMSGetValue (key : String)
  | GetValue (key : String)
  | LMSSetValue (key : String) (value : JsValue)
  | SetValue (key : String) (value : String)
  | LMSCommit (arg : String)
  | Commit (arg : String)
  | LMSGetLastError
  | GetLastError
  | LMSGetErrorString (code : String)
  | GetErrorString (code : String)
deriving DecidableEq, Repr

/-- The behaviour of the host capability object referenced by `this._api`:
the values its primitives return (the host is not re-read within a single
adapter operation, so a static record suffices). -/
structure Host where
  lookup : String → String
  initOk : Bool
  finishOk : Bool
  commitOk : Bool
  setOk : Bool
  lastError : String
  errorText : String → String

/-- `notConnected()`: logs a warning and returns `null`, dispatching
nothing. -/
def notConnectedResult : JsValue × List ApiCall := (JsValue.nullV, [])

/-- `get(key)` (src/index.js lines 220-228): guarded by the connection
check, then dispatches the version-appropriate get-value primitive. -/
def get (s : SCORM) (h : Host) (key : String) : JsValue × List ApiCall :=
  if !s._connected then notConnectedResult
  else if isV1 s then (JsValue.str (h.lookup key), [ApiCall.LMSGetValue key])
  else (JsValue.str (h.lookup key), [ApiCall.GetValue key])

/-- `set(key, value)` (src/index.js lines 236-244): guarded, then
`this.isV1() ? this._api.LMSSetValue(key, value) :
this._api.SetValue(key, String(value))` — only the v2004 dispatch applies
`String(...)` to the value. -/
def set (s : SCORM) (h : Host) (key : String) (value : JsValue) :
    JsValue × List ApiCall :=
  if !s._connected then notConnectedResult
  else if isV1 s then (JsValue.boolV h.setOk, [ApiCall.LMSSetValue key value])
  else (JsValue.boolV h.setOk, [ApiCall.SetValue key value.toStr])

/-- `status(status)` (src/index.js lines 196-212): guarded, then reads or
writes the version-appropriate completion-status field via `get`/`set`. -/
def status (s : SCORM) (h : Host) (st : Option String) : JsValue × List ApiCall :=
  if !s._connected then notConnectedResult
  else
    let cmi := if isV1 s then "cmi.core.lesson_status" else "cmi.completion_status"
    match st with
    | none => get s h cmi
    | some v => set s h cmi (JsValue.str v)

/-- `save()` (src/index.js lines 250-258): guarded, then dispatches the
version-appropriate commit primitive with an empty argument. -/
def save (s : SCORM) (h : Host) : JsValue × List ApiCall :=
  if !s._connected then notConnectedResult
  else if isV1 s then (JsValue.boolV h.commitOk, [ApiCall.LMSCommit ""])
  else (JsValue.boolV h.commitOk, [ApiCall.Commit ""])

/-- `lastErrorCode()` (src/index.js lines 265-273): guarded, then dispatches
the version-appropriate get-last-error primitive. -/
def lastErrorCode (s : SCORM) (h : Host) : JsValue × List ApiCall :=
  if !s._connected then notConnectedResult
  else if isV1 s then (JsValue.str h.lastError, [ApiCall.LMSGetLastError])
  else (JsValue.str h.lastError, [ApiCall.GetLastError])

/-- `errorString(code)` (src/index.js lines 280-288): guarded, then
dispatches the version-appropriate get-error-string primitive with
`code.toString()` (the identity here, `code` being a string). -/
def errorString (s : SCORM) (h : Host) (code : String) : JsValue × List ApiCall :=
  if !s._connected then notConnectedResult
  else if isV1 s then (JsValue.str (h.errorText code), [ApiCall.LMSGetErrorString code])
  else (JsValue.str (h.errorText code), [ApiCall.GetErrorString code])

/-- `terminate()` (src/index.js lines 158-189): when connected, optionally
writes the version-specific exit-reason field depending on the completion
status, always saves, then invokes the end-session primitive; `_connected`
is cleared only when that primitive's result is truthy. On a falsy result
the warning `console.warn(..., this.errorString(this.lastErrorCode()))`
dispatches the get-last-error and get-error-string primitives (the instance
is still connected there) and the method returns early leaving the state as
is; the error-code string handed to `errorString` is the value
`lastErrorCode` returned, `h.lastError`. Returns the JS result, the final
instance state and the dispatched calls in order. -/
def terminate (s : SCORM) (h : Host) : JsValue × SCORM × List ApiCall :=
  if !s._connected then (JsValue.nullV, s, [])
  else
    let trExit :=
      if s.updateStatusBeforeTerminate then
        let completion := (status s h none).1
        let trRead := (status s h none).2
        let exitKey := if isV1 s then "cmi.core.exit" else "cmi.exit"
        let trWrite :=
          if !(strictEqStr completion "completed") && !(strictEqStr completion "passed") then
            (set s h exitKey (JsValue.str "suspend")).2
          else
            (set s h exitKey (JsValue.str (if isV1 s then "logout" else "normal"))).2
        trRead ++ trWrite
      else []
    let trSave := (save s h).2
    let success := h.finishOk
    let trEnd := [if isV1 s then ApiCall.LMSFinish "" else ApiCall.Terminate ""]
    if !success then
      let trWarn := (lastErrorCode s h).2 ++ (errorString s h h.lastError).2
      (JsValue.undef, s, trExit ++ trSave ++ trEnd ++ trWarn)
    else (JsValue.undef, { s with _connected := false }, trExit ++ trSave ++ trEnd)

/-- `initialize()` (src/index.js lines 118-153): no-op when already
connected; runs discovery (`this.findAPI([window, window.top.opener])` in
the source — the context list is the `windows` parameter here), absorbing
its error; on success invokes the begin-session primitive (its boolean
result `_beginOk` is only inspected for a warning), sets `_connected = true`,
and, when `updateStatusAfterInitialize` is set and the current completion
status is falsy, `'not attempted'` or `'unknown'`, writes `'incomplete'` and
saves. State mutated by a failing `findAPI` persists, as in the source. -/
def initializeAPI (env : Env) (globalWindow : Nat) (windows : List Nat)
    (h : Host) (s : SCORM) : SCORM × List ApiCall :=
  if s._connected then (s, [])
  else
    match findAPI env globalWindow windows s with
    | (s1, some _) => (s1, [])
    | (s1, none) =>
      let trBegin := [if isV1 s1 then ApiCall.LMSInitialize "" else ApiCall.Initialize ""]
      let _beginOk := h.initOk
      let s2 := { s1 with _connected := true }
      if s2.updateStatusAfterInitialize then
        let completion := (status s2 h none).1
        let trRead := (status s2 h none).2
        if jsFalsy completion || strictEqStr completion "not attempted"
            || strictEqStr completion "unknown" then
          (s2, trBegin ++ trRead ++ (status s2 h (some "incomplete")).2 ++ (save s2 h).2)
        else (s2, trBegin ++ trRead)
      else (s2, trBegin)

/-- Is a dispatched call one of the two commit primitives? -/
def isCommitCall : ApiCall → Bool
  | .LMSCommit _ => true
  | .Commit _ => true
  | _ => false

/-- Is a dispatched call a set-value primitive (either version)? -/
def isSetCall : ApiCall → Bool
  | .LMSSetValue _ _ => true
  | .SetValue _ _ => true
  | _ => false

/-- A fresh instance pinned to version 1.2, as the constructor builds it. -/
def scormV1 : SCORM :=
  { updateStatusAfterInitialize := true
    updateStatusBeforeTerminate := true
    _version := some VERSION_1_2
    _depth := 10
    _api := none
    _connected := false }

/-- A fresh instance pinned to version 2004, as the constructor builds it. -/
def scormV2 : SCORM :=
  { updateStatusAfterInitialize := true
    updateStatusBeforeTerminate := true
    _version := some VERSION_2004
    _depth := 10
    _api := none
    _connected := false }

/-- A v1 instance that has discovered an API handle and connected. -/
def scormV1Connected : SCORM := { scormV1 with _api := some 5, _connected := true }

/-- A v2004 instance that has discovered an API handle and connected. -/
def scormV2Connected : SCORM := { scormV2 with _api := some 5, _connected := true }

/-- A v1 instance holding an API handle but not connected (e.g. after a
successful discovery whose host slot has since been withdrawn). -/
def scormV1WithApi : SCORM := { scormV1 with _api := some 5 }

/-- A host whose primitives all succeed and report status `""`. -/
def host0 : Host :=
  { lookup := fun _ => ""
    initOk := true
    finishOk := true
    commitOk := true
    setOk := true
    lastError := "0"
    errorText := fun _ => "" }

/-- A hierarchy with two parentless contexts; only context 1 carries the v1
capability slot. -/
def envSlotOn1 : Env :=
  { parent := fun _ => none
    api := fun w => if w = 1 then some 5 else none
    api1484 := fun _ => none }

/-- A hierarchy where context 0 has parent context 1, and only the parent
carries the v1 capability slot. -/
def envSlotOnParent : Env :=
  { parent := fun w => if w = 0 then some 1 else none
    api := fun w => if w = 1 then some 7 else none
    api1484 := fun _ => none }

/-- A hierarchy with no capability slot anywhere. -/
def envEmpty : Env :=
  { parent := fun _ => none
    api := fun _ => none
    api1484 := fun _ => none }

/-- A host whose end-session primitive reports failure. -/
def hostFinishFails : Host := { host0 with finishOk := false }

/-- A host that reports completion status `"not attempted"`. -/
def hostNotAttempted : Host := { host0 with lookup := fun _ => "not attempted" }

/-- A hierarchy whose context 0 (the global window) carries the v1 slot. -/
def envGlobalV1 : Env :=
  { parent := fun _ => none
    api := fun w => if w = 0 then some 3 else none
    api1484 := fun _ => none }

/-- `scormV1` after a successful discovery against `envGlobalV1`. -/
def scormV1Api3 : SCORM := { scormV1 with _api := some 3 }

/-- A host that reports completion status `"completed"`. -/
def hostCompleted : Host := { host0 with lookup := fun _ => "completed" }

/-- The instance states reachable from `s` by the state-mutating operations
of the class: discovery, initialization and termination (the six guarded
accessors never change instance state in the embedding). -/
inductive Reach : SCORM → SCORM → Prop where
  | refl (s : SCORM) : Reach s s
  | stepFind (env : Env) (g : Nat) (ws : List Nat) {s t : SCORM} :
      Reach s t → Reach s (findAPI env g ws t).1
  | stepInit (env : Env) (g : Nat) (ws : List Nat) (h : Host) {s t : SCORM} :
      Reach s t → Reach s (initializeAPI env g ws h t).1
  | stepTerm (h : Host) {s t : SCORM} :
      Reach s t → Reach s (terminate t h).2.1

/-- `findAPI` never changes the fields other than `_version` and `_api`:
`updateStatusAfterInitialize`, `updateStatusBeforeTerminate`, `_connected`
and `_depth` are returned untouched. -/
theorem findAPI_fields (env : Env) (g : Nat) (ws : List Nat) (s : SCORM) :
    (findAPI env g ws s).1.updateStatusAfterInitialize = s.updateStatusAfterInitialize
    ∧ (findAPI env g ws s).1.updateStatusBeforeTerminate = s.updateStatusBeforeTerminate
    ∧ (findAPI env g ws s).1._connected = s._connected
    ∧ (findAPI env g ws s).1._depth = s._depth := by
  simp only [findAPI, findAPIPinned, findAPIAuto]
  split_ifs <;> simp

/-- In the version-pinned branch, `findAPI` leaves `_version` untouched. -/
theorem findAPI_version_pinned (env : Env) (g : Nat) (ws : List Nat) (s : SCORM)
    (hv : versionTruthy s._version = true) :
    (findAPI env g ws s).1._version = s._version := by
  simp only [findAPI, findAPIPinned, hv]
  split_ifs <;> simp

/-- Claim C1: the spec says construction with the version token absent
(autodetect) succeeds, and failure happens only for a non-recognized,
non-empty value. The code evaluated at the failing input: `construct none`
(an absent argument) throws `InvalidVersion`, although both recognized
literals are accepted — the constructor's strict-inequality guard also
rejects `undefined`, contradicting its own doc comment ("Leave blank for
autodetect") and the README's `new SCORM()` example. -/
theorem constructRejectsAbsentVersion :
    construct none = Except.error (ConstructError.invalidVersion none)
    ∧ construct (some VERSION_1_2) = Except.ok scormV1
    ∧ construct (some VERSION_2004) = Except.ok scormV2
    ∧ construct (some "3000") = Except.error (ConstructError.invalidVersion (some "3000")) :=
  ⟨rfl, rfl, rfl, rfl⟩

/-- Claim C2: the spec says a version-pinned discovery sets `_api` to the
matching slot found among the searched contexts, failing only when no
listed context holds it. The code evaluated at the failing input: with the
v1 slot present on listed context 1 but absent on the global window
(context 0), `findAPI` of a v1-pinned instance throws `ApiNotFound` and
leaves `_api` null — after the search loop the source reads the ambient
global `window`'s slots and discards what the loop found. -/
theorem findAPIMissesListedContext :
    (findAPI envSlotOn1 0 [1] scormV1).2 = some (FindError.apiNotFound (some VERSION_1_2))
    ∧ (findAPI envSlotOn1 0 [1] scormV1).1._api = none
    ∧ envSlotOn1.api 1 = some 5 := by
  decide

/-- Claim C3: the spec says discovery walks each listed context's ancestor
chain up to `searchDepth` hops, so a slot on a parent context is found. The
code evaluated at the failing input: context 0 (listed and global) has no
slot, its parent context 1 holds the v1 slot one hop away, yet the search
loop's accumulators never pick it up (the loop never advances to
`window.parent`) and `findAPI` throws `ApiNotFound`. -/
theorem findAPINeverWalksAncestors :
    searchLoop envSlotOnParent 10 [0]
        (versionAcc (some VERSION_1_2) VERSION_1_2)
        (versionAcc (some VERSION_1_2) VERSION_2004)
      = (Acc.undef, Acc.bool true)
    ∧ (findAPI envSlotOnParent 0 [0] scormV1).2
      = some (FindError.apiNotFound (some VERSION_1_2))
    ∧ envSlotOnParent.parent 0 = some 1
    ∧ envSlotOnParent.api 1 = some 7 := by
  decide

/-- Claim C4: the spec (and the method's own doc comment) says `set` coerces
any non-string value to its string representation before dispatching. The
code evaluated at the failing input: on a connected v1 instance,
`set('cmi.x', 42)` dispatches `LMSSetValue` with the raw number 42 — only
the v2004 branch applies `String(value)` and dispatches `"42"`. -/
theorem setV1PassesRawValue :
    (set scormV1Connected host0 "cmi.x" (JsValue.num 42)).2
      = [ApiCall.LMSSetValue "cmi.x" (JsValue.num 42)]
    ∧ (set scormV2Connected host0 "cmi.x" (JsValue.num 42)).2
      = [ApiCall.SetValue "cmi.x" "42"]
    ∧ JsValue.num 42 ≠ JsValue.str "42" := by
  decide

/-- Claim C9 counterexample: the claim says a failing `findAPI` leaves
`_version`, `_api` and `_connected` exactly as they were. On a v1-pinned
instance currently holding `_api = some 5`, discovery over a slotless
hierarchy fails with `ApiNotFound` yet `_api` has been overwritten with the
absent global slot (null): the assignment precedes the check that throws. -/
theorem findAPIFailureMutatesApi :
    (findAPI envEmpty 0 [0] scormV1WithApi).2
      = some (FindError.apiNotFound (some VERSION_1_2))
    ∧ (findAPI envEmpty 0 [0] scormV1WithApi).1._api = none
    ∧ scormV1WithApi._api = some 5 := by
  decide

/-- Claim C5: on a disconnected instance, each of the six guarded
operations `get`, `set`, `status`, `save`, `lastErrorCode`, `errorString`
returns the null result and dispatches nothing to the host object. -/
theorem disconnectedOpsNull (s : SCORM) (h : Host) (key : String)
    (value : JsValue) (code : String) (st : Option String)
    (hc : s._connected = false) :
    get s h key = (JsValue.nullV, [])
    ∧ set s h key value = (JsValue.nullV, [])
    ∧ status s h st = (JsValue.nullV, [])
    ∧ save s h = (JsValue.nullV, [])
    ∧ lastErrorCode s h = (JsValue.nullV, [])
    ∧ errorString s h code = (JsValue.nullV, []) := by
  simp [get, set, status, save, lastErrorCode, errorString, notConnectedResult, hc]

/-- Claim C5 witness: the six operations on a concrete fresh (disconnected)
v1 instance. -/
theorem disconnectedOpsNullWitness :
    get scormV1 host0 "cmi.suspend_data" = (JsValue.nullV, [])
    ∧ set scormV1 host0 "cmi.suspend_data" (JsValue.num 42) = (JsValue.nullV, [])
    ∧ status scormV1 host0 none = (JsValue.nullV, [])
    ∧ save scormV1 host0 = (JsValue.nullV, [])
    ∧ lastErrorCode scormV1 host0 = (JsValue.nullV, [])
    ∧ errorString scormV1 host0 "101" = (JsValue.nullV, []) :=
  disconnectedOpsNull scormV1 host0 "cmi.suspend_data" (JsValue.num 42) "101" none rfl

/-- Claim C6: on a connected instance, when the end-session primitive
reports failure `terminate` returns early leaving the whole state (in
particular `_connected = true`) as it was, and the transition to
disconnected happens exactly on confirmed primitive success. -/
theorem terminateKeepsConnectionOnFailure (s : SCORM) (h : Host)
    (hc : s._connected = true) :
    (h.finishOk = false → (terminate s h).2.1 = s)
    ∧ (h.finishOk = true → (terminate s h).2.1 = { s with _connected := false }) := by
  constructor <;> intro hf <;> simp [terminate, hc, hf]

/-- Claim C6 witness: a concrete connected v1 instance stays connected when
the host's `LMSFinish` fails, and disconnects when it succeeds. -/
theorem terminateKeepsConnectionOnFailureWitness :
    (terminate scormV1Connected hostFinishFails).2.1 = scormV1Connected
    ∧ (terminate scormV1Connected host0).2.1
      = { scormV1Connected with _connected := false } :=
  ⟨(terminateKeepsConnectionOnFailure scormV1Connected hostFinishFails rfl).1 rfl,
   (terminateKeepsConnectionOnFailure scormV1Connected host0 rfl).2 rfl⟩

/-- Claim C8: on a connected instance with `updateStatusBeforeTerminate`,
`terminate` reads the completion status, writes the version-specific
exit-reason field (`cmi.core.exit` for v1, `cmi.exit` for v2004) with
`"logout"` (v1) / `"normal"` (v2004) when the status is `"completed"` or
`"passed"` and with `"suspend"` otherwise, and always dispatches the commit
(save) before the end-session primitive — the full dispatch trace, in
order, including the get-last-error / get-error-string dispatches the
failure warning makes after the end-session primitive reports failure. -/
theorem terminateSetsExitAndSavesFirst (s : SCORM) (h : Host)
    (hc : s._connected = true) (hu : s.updateStatusBeforeTerminate = true) :
    (terminate s h).2.2 =
      (if isV1 s then
        [ApiCall.LMSGetValue "cmi.core.lesson_status",
         ApiCall.LMSSetValue "cmi.core.exit" (JsValue.str
           (if h.lookup "cmi.core.lesson_status" = "completed"
              ∨ h.lookup "cmi.core.lesson_status" = "passed"
            then "logout" else "suspend")),
         ApiCall.LMSCommit "", ApiCall.LMSFinish ""]
        ++ (if h.finishOk then []
            else [ApiCall.LMSGetLastError, ApiCall.LMSGetErrorString h.lastError])
      else
        [ApiCall.GetValue "cmi.completion_status",
         ApiCall.SetValue "cmi.exit"
           (if h.lookup "cmi.completion_status" = "completed"
              ∨ h.lookup "cmi.completion_status" = "passed"
            then "normal" else "suspend"),
         ApiCall.Commit "", ApiCall.Terminate ""]
        ++ (if h.finishOk then []
            else [ApiCall.GetLastError, ApiCall.GetErrorString h.lastError])) := by
  by_cases hv : isV1 s
  · by_cases h1 : h.lookup "cmi.core.lesson_status" = "completed" <;>
    by_cases h2 : h.lookup "cmi.core.lesson_status" = "passed" <;>
    by_cases hfk : h.finishOk <;>
    simp [terminate, status, get, set, save, lastErrorCode, errorString,
      strictEqStr, JsValue.toStr, hc, hu, hv, h1, h2, hfk]
  · by_cases h1 : h.lookup "cmi.completion_status" = "completed" <;>
    by_cases h2 : h.lookup "cmi.completion_status" = "passed" <;>
    by_cases hfk : h.finishOk <;>
    simp [terminate, status, get, set, save, lastErrorCode, errorString,
      strictEqStr, JsValue.toStr, hc, hu, hv, h1, h2, hfk]

/-- Claim C8 witness: a connected v1 instance whose host reports
`"completed"` dispatches read, exit-reason `"logout"`, commit, then
`LMSFinish`; with a host whose end-session fails, the exit-reason is
`"suspend"` (status `""`) and the failure warning's error-query dispatches
follow the end-session call. -/
theorem terminateSetsExitAndSavesFirstWitness :
    (terminate scormV1Connected hostCompleted).2.2 =
      [ApiCall.LMSGetValue "cmi.core.lesson_status",
       ApiCall.LMSSetValue "cmi.core.exit" (JsValue.str "logout"),
       ApiCall.LMSCommit "", ApiCall.LMSFinish ""]
    ∧ (terminate scormV1Connected hostFinishFails).2.2 =
      [ApiCall.LMSGetValue "cmi.core.lesson_status",
       ApiCall.LMSSetValue "cmi.core.exit" (JsValue.str "suspend"),
       ApiCall.LMSCommit "", ApiCall.LMSFinish "",
       ApiCall.LMSGetLastError, ApiCall.LMSGetErrorString "0"] := by
  constructor
  · rw [terminateSetsExitAndSavesFirst scormV1Connected hostCompleted rfl rfl]
    decide
  · rw [terminateSetsExitAndSavesFirst scormV1Connected hostFinishFails rfl rfl]
    decide

/-- Claim C7: on a disconnected instance with `updateStatusAfterInitialize`
whose discovery succeeds (resulting state `s1`), when the host reports a
completion status of `""`, `"not attempted"` or `"unknown"`, the dispatch
trace of `initialize` is begin-session, status read, status write
`"incomplete"`, commit — so the status is set to `"incomplete"` and exactly
one commit is issued; for any other reported status the trace stops after
the read: no status write and no commit. -/
theorem initUpdatesStatusOnce (env : Env) (g : Nat) (ws : List Nat) (h : Host)
    (s s1 : SCORM) (hc : s._connected = false)
    (hu : s.updateStatusAfterInitialize = true)
    (hf : findAPI env g ws s = (s1, none)) :
    ((h.lookup (if isV1 s1 then "cmi.core.lesson_status" else "cmi.completion_status") = ""
        ∨ h.lookup (if isV1 s1 then "cmi.core.lesson_status" else "cmi.completion_status") = "not attempted"
        ∨ h.lookup (if isV1 s1 then "cmi.core.lesson_status" else "cmi.completion_status") = "unknown") →
      (initializeAPI env g ws h s).2 =
        (if isV1 s1 then
          [ApiCall.LMSInitialize "", ApiCall.LMSGetValue "cmi.core.lesson_status",
           ApiCall.LMSSetValue "cmi.core.lesson_status" (JsValue.str "incomplete"),
           ApiCall.LMSCommit ""]
        else
          [ApiCall.Initialize "", ApiCall.GetValue "cmi.completion_status",
           ApiCall.SetValue "cmi.completion_status" "incomplete", ApiCall.Commit ""])
      ∧ (initializeAPI env g ws h s).2.countP isCommitCall = 1)
    ∧ ((h.lookup (if isV1 s1 then "cmi.core.lesson_status" else "cmi.completion_status") ≠ ""
        ∧ h.lookup (if isV1 s1 then "cmi.core.lesson_status" else "cmi.completion_status") ≠ "not attempted"
        ∧ h.lookup (if isV1 s1 then "cmi.core.lesson_status" else "cmi.completion_status") ≠ "unknown") →
      (initializeAPI env g ws h s).2 =
        (if isV1 s1 then
          [ApiCall.LMSInitialize "", ApiCall.LMSGetValue "cmi.core.lesson_status"]
        else
          [ApiCall.Initialize "", ApiCall.GetValue "cmi.completion_status"])
      ∧ (initializeAPI env g ws h s).2.countP isCommitCall = 0
      ∧ (initializeAPI env g ws h s).2.countP isSetCall = 0) := by
  have hu1 : s1.updateStatusAfterInitialize = true := by
    have hx := (findAPI_fields env g ws s).1
    rw [hf] at hx
    simpa [hu] using hx
  constructor
  · rintro (h1 | h1 | h1) <;> by_cases hv : isV1 s1 <;>
      simp [isV1, VERSION_1_2] at hv <;>
      simp [isV1, VERSION_1_2, hv] at h1 <;>
      simp [initializeAPI, hc, hf, hu1, hv, status, get, set, save, jsFalsy,
        strictEqStr, JsValue.toStr, isCommitCall, isSetCall, isV1, VERSION_1_2,
        List.countP_cons, List.countP_nil, h1]
  · rintro ⟨h1, h2, h3⟩
    by_cases hv : isV1 s1 <;>
      simp [isV1, VERSION_1_2] at hv <;>
      simp [isV1, VERSION_1_2, hv] at h1 h2 h3 <;>
      simp [initializeAPI, hc, hf, hu1, hv, status, get, set, save, jsFalsy,
        strictEqStr, JsValue.toStr, isCommitCall, isSetCall, isV1, VERSION_1_2,
        List.countP_cons, List.countP_nil, h1, h2, h3]

/-- Claim C7 witness: a fresh v1 instance discovering its API on the global
window, against a host reporting `"not attempted"`, dispatches begin-session,
read, write `"incomplete"`, and exactly one commit. -/
theorem initUpdatesStatusOnceWitness :
    (initializeAPI envGlobalV1 0 [0] hostNotAttempted scormV1).2 =
      [ApiCall.LMSInitialize "", ApiCall.LMSGetValue "cmi.core.lesson_status",
       ApiCall.LMSSetValue "cmi.core.lesson_status" (JsValue.str "incomplete"),
       ApiCall.LMSCommit ""]
    ∧ (initializeAPI envGlobalV1 0 [0] hostNotAttempted scormV1).2.countP isCommitCall = 1 := by
  have h := (initUpdatesStatusOnce envGlobalV1 0 [0] hostNotAttempted scormV1
      scormV1Api3 rfl rfl (by decide)).1 (Or.inr (Or.inl rfl))
  simpa [scormV1Api3, scormV1, isV1, VERSION_1_2] using h

/-- Claim C9, amended: when `findAPI` fails with `ApiNotFound`, `_version`
and `_connected` are indeed unchanged, and in the autodetect branch so is
the whole state — but in the version-pinned branch `_api` has been
overwritten with the absent global slot (null) rather than preserved. -/
theorem findAPIFailurePreservesVersionConnected (env : Env) (g : Nat)
    (ws : List Nat) (s : SCORM) (e : FindError)
    (hf : (findAPI env g ws s).2 = some e) :
    (findAPI env g ws s).1._version = s._version
    ∧ (findAPI env g ws s).1._connected = s._connected
    ∧ (versionTruthy s._version = true → (findAPI env g ws s).1._api = none)
    ∧ (versionTruthy s._version = false → (findAPI env g ws s).1 = s) := by
  by_cases hv : versionTruthy s._version
  · simp only [findAPI, findAPIPinned, hv, if_true] at hf ⊢
    split at hf <;> split at hf <;> simp_all
  · simp only [findAPI, findAPIAuto, hv, Bool.false_eq_true, if_false] at hf ⊢
    rcases henv1 : env.api g with _ | a <;> rcases henv2 : env.api1484 g with _ | b <;>
      simp_all
    by_cases hapi : s._api = none <;> simp_all

/-- Claim C9 witness (amended claim at the counterexample's input): the
failing call preserves `_version` and `_connected`, and clears `_api`. -/
theorem findAPIFailurePreservesVersionConnectedWitness :
    (findAPI envEmpty 0 [0] scormV1WithApi).1._version = scormV1WithApi._version
    ∧ (findAPI envEmpty 0 [0] scormV1WithApi).1._connected = scormV1WithApi._connected
    ∧ (findAPI envEmpty 0 [0] scormV1WithApi).1._api = none := by
  have h := findAPIFailurePreservesVersionConnected envEmpty 0 [0] scormV1WithApi
      (FindError.apiNotFound (some VERSION_1_2)) (by decide)
  exact ⟨h.1, h.2.1, h.2.2.1 (by decide)⟩

/-- A version restricted to the two recognized tokens is truthy. -/
theorem versionTruthy_of_pinned {v : Option String}
    (hp : v = some VERSION_1_2 ∨ v = some VERSION_2004) :
    versionTruthy v = true := by
  rcases hp with h | h <;> simp [h, versionTruthy, VERSION_1_2, VERSION_2004]

/-- With a truthy (pinned) version, `initialize` leaves `_version`
untouched on every path. -/
theorem initializeAPI_version (env : Env) (g : Nat) (ws : List Nat) (h : Host)
    (s : SCORM) (hver : versionTruthy s._version = true) :
    (initializeAPI env g ws h s).1._version = s._version := by
  have hfv := findAPI_version_pinned env g ws s hver
  simp only [initializeAPI]
  split
  · rfl
  · rcases hfa : findAPI env g ws s with ⟨s1, err⟩
    rw [hfa] at hfv
    simp only at hfv
    cases err
    · simp only []
      split <;> split <;> simp_all
    · simpa using hfv

/-- `terminate` leaves `_version` untouched on every path. -/
theorem terminate_version (s : SCORM) (h : Host) :
    (terminate s h).2.1._version = s._version := by
  simp only [terminate]
  split_ifs <;> rfl

/-- Along any operation sequence, an instance whose version is pinned to a
recognized token keeps that exact `_version`. -/
theorem reach_version {s t : SCORM} (hr : Reach s t) :
    (s._version = some VERSION_1_2 ∨ s._version = some VERSION_2004) →
    t._version = s._version := by
  induction hr with
  | refl => intro _; rfl
  | stepFind env g ws hprev ih =>
    intro hp
    have ih' := ih hp
    rw [← ih'] at hp
    rw [findAPI_version_pinned _ _ _ _ (versionTruthy_of_pinned hp)]
    exact ih'
  | stepInit env g ws h hprev ih =>
    intro hp
    have ih' := ih hp
    rw [← ih'] at hp
    rw [initializeAPI_version _ _ _ _ _ (versionTruthy_of_pinned hp)]
    exact ih'
  | stepTerm h hprev ih =>
    intro hp
    rw [terminate_version]
    exact ih hp

/-- Claim C10: the constructor accepts exactly the two recognized tokens —
rejecting every other input, absence included — and along every sequence of
operations a constructed instance keeps `_version` equal to its construction
token, exactly one of `isV1`/`isV2` holds, and `findAPI` always takes the
version-pinned branch (the autodetect branch `findAPIAuto` is unreachable
from a publicly constructed instance). -/
theorem versionPinnedForLifetime :
    (∀ v, (∃ s, construct v = Except.ok s) ↔ (v = some VERSION_1_2 ∨ v = some VERSION_2004))
    ∧ (∀ v s t, construct v = Except.ok s → Reach s t →
        t._version = v
        ∧ ((isV1 t = true ∧ isV2 t = false) ∨ (isV1 t = false ∧ isV2 t = true))
        ∧ ∀ env g ws, findAPI env g ws t = findAPIPinned env g t) := by
  constructor
  · intro v
    constructor
    · rintro ⟨s, hs⟩
      simp only [construct] at hs
      split at hs
      · cases hs
      · rename_i hcond
        tauto
    · rintro (h | h) <;> subst h <;> exact ⟨_, rfl⟩
  · intro v s t hcons hr
    have hsv : s._version = v ∧ (v = some VERSION_1_2 ∨ v = some VERSION_2004) := by
      simp only [construct] at hcons
      split at hcons
      · cases hcons
      · rename_i hcond
        cases hcons
        exact ⟨rfl, by tauto⟩
    obtain ⟨hsv1, hpin⟩ := hsv
    have hpins : s._version = some VERSION_1_2 ∨ s._version = some VERSION_2004 := by
      rw [hsv1]; exact hpin
    have hv : t._version = v := (reach_version hr hpins).trans hsv1
    refine ⟨hv, ?_, ?_⟩
    · rcases hpin with h | h <;>
        simp [isV1, isV2, hv, h, VERSION_1_2, VERSION_2004]
    · intro env g ws
      have ht : versionTruthy t._version = true :=
        versionTruthy_of_pinned (by rw [hv]; exact hpin)
      simp [findAPI, ht]

/-- Claim C10 witness: a v1-constructed instance, at the zero-step
lifetime point, has its version pinned, satisfies exactly `isV1`, and its
`findAPI` equals the pinned branch on a concrete hierarchy. -/
theorem versionPinnedForLifetimeWitness :
    scormV1._version = some VERSION_1_2
    ∧ ((isV1 scormV1 = true ∧ isV2 scormV1 = false)
       ∨ (isV1 scormV1 = false ∧ isV2 scormV1 = true))
    ∧ findAPI envEmpty 0 [0] scormV1 = findAPIPinned envEmpty 0 scormV1 := by
  have h := versionPinnedForLifetime.2 (some VERSION_1_2) scormV1 scormV1 rfl
      (Reach.refl scormV1)
  exact ⟨h.1, h.2.1, h.2.2 envEmpty 0 [0]⟩

end SCORMint
